import Mathlib

/-!
Verification of the pension-projection core of `streamlit_app.py`.

The program is a single-pass arithmetic pipeline over scalar inputs:
four pure functions (salary projector, service projector, threshold
projector, benefit calculator), a valuation/threshold comparison, a
warning check, and a per-age scenario sweep collected into a sorted
table. We embed the numeric domain with `ℚ` (the Python code computes
with floats over the exact formulas below; no claim under test depends
on rounding of binary floats). Python `int` values are embedded as `ℤ`.

The `years` argument of the projectors is declared `int` in the source,
but every call site passes `max(0, ...)`, a non-negative integer; we
embed it as `ℕ`.
-/

/-- Source `streamlit_app.py` lines 40-41:
`project_final_salary(salary_now, growth_pct, years) =
 salary_now * ((1 + growth_pct/100.0) ** years)`. -/
def project_final_salary (salary_now growth_pct : ℚ) (years : ℕ) : ℚ :=
  salary_now * ((1 + growth_pct / 100) ^ years)

/-- Source lines 43-44:
`project_service(service_now, accrual_per_year, years, cap) =
 min(service_now + accrual_per_year * years, cap)`. -/
def project_service (service_now accrual_per_year : ℚ) (years : ℕ) (cap : ℚ) : ℚ :=
  min (service_now + accrual_per_year * years) cap

/-- Source lines 46-47:
`sft_at_year(sft_now, growth_pct, years) = sft_now * ((1 + growth_pct/100.0) ** years)`. -/
def sft_at_year (sft_now growth_pct : ℚ) (years : ℕ) : ℚ :=
  sft_now * ((1 + growth_pct / 100) ^ years)

/-- Source lines 49-52:
`classic_db_pension(final_salary, service_years) =
 (final_salary * (service_years / 80.0), final_salary * (service_years / 30.0))`. -/
def classic_db_pension (final_salary service_years : ℚ) : ℚ × ℚ :=
  (final_salary * (service_years / 80), final_salary * (service_years / 30))

/-- Modelled from the spec (section 4.1), for comparison with the source
projectors: `project_growth(base, annual_growth_pct, years) =
base × (1 + annual_growth_pct/100)^years`. -/
def project_growth (base annual_growth_pct : ℚ) (years : ℕ) : ℚ :=
  base * ((1 + annual_growth_pct / 100) ^ years)

/-- The sidebar scalar inputs consumed by the calculation pipeline
(source lines 16-37), other than the target age/year from which
`years_to_retirement` is derived. -/
structure Inputs where
  current_salary : ℚ
  salary_growth_pct : ℚ
  current_service : ℚ
  annual_service_accrual : ℚ
  max_service_cap : ℚ
  valuation_factor : ℚ
  sft_now : ℚ
  sft_growth_pct : ℚ
deriving DecidableEq

/-- Source line 55: `final_salary = project_final_salary(current_salary,
salary_growth_pct, years_to_retirement)`, parameterized by the derived
`years_to_retirement`. -/
def final_salary (I : Inputs) (years : ℕ) : ℚ :=
  project_final_salary I.current_salary I.salary_growth_pct years

/-- Source line 56: `service_at_retirement = project_service(current_service,
annual_service_accrual, years_to_retirement, max_service_cap)`. -/
def service_at_retirement (I : Inputs) (years : ℕ) : ℚ :=
  project_service I.current_service I.annual_service_accrual years I.max_service_cap

/-- Source line 57, first component: `annual_pension, lump_sum =
classic_db_pension(final_salary, service_at_retirement)`. -/
def annual_pension (I : Inputs) (years : ℕ) : ℚ :=
  (classic_db_pension (final_salary I years) (service_at_retirement I years)).1

/-- Source line 57, second component. -/
def lump_sum (I : Inputs) (years : ℕ) : ℚ :=
  (classic_db_pension (final_salary I years) (service_at_retirement I years)).2

/-- Source line 59: `sft_value = annual_pension * valuation_factor + lump_sum`. -/
def sft_value (I : Inputs) (years : ℕ) : ℚ :=
  annual_pension I years * I.valuation_factor + lump_sum I years

/-- Source line 60: `sft_threshold_future = sft_at_year(sft_now, sft_growth_pct,
years_to_retirement)`. -/
def sft_threshold_future (I : Inputs) (years : ℕ) : ℚ :=
  sft_at_year I.sft_now I.sft_growth_pct years

/-- Source lines 89 and 117: the over-threshold comparison
`sft_value > sft_threshold_future` (strict). -/
def over_sft (I : Inputs) (years : ℕ) : Bool :=
  decide (sft_value I years > sft_threshold_future I years)

/-- Source line 66: the service-hit-cap warning condition
`abs(service_at_retirement - max_service_cap) < 1e-9`. -/
def serviceHitCap (I : Inputs) (years : ℕ) : Bool :=
  decide (|service_at_retirement I years - I.max_service_cap| < 1 / 1000000000)

/-- Source line 110 (and, in the by-age target mode, line 25): the years
to retirement derived from a candidate retirement age,
`yrs = max(0, age - current_age)`, as a natural number. -/
def yearsFor (current_age age : ℤ) : ℕ :=
  (max 0 (age - current_age)).toNat

/-- One row of the scenario table, source lines 118-129. The monetary and
service fields hold the `round(...)`ed display values exactly as the source
stores them; the over-SFT flag is stored as the string written to the table. -/
structure ScenarioRow where
  retAge : ℤ
  retYear : ℤ
  yearsToRet : ℕ
  service : ℚ
  finalSalary : ℚ
  annualPension : ℚ
  lumpSum : ℚ
  sftVal : ℚ
  sftThr : ℚ
  overStr : String
deriving DecidableEq

/-- Python `round` to the nearest integer with ties to even (banker's
rounding), on the exact rational value. -/
def roundHalfEven (x : ℚ) : ℤ :=
  if x - ⌊x⌋ < 1 / 2 then ⌊x⌋
  else if 1 / 2 < x - ⌊x⌋ then ⌊x⌋ + 1
  else if Even ⌊x⌋ then ⌊x⌋ else ⌊x⌋ + 1

/-- Python `round(x, nd)` for `nd ≥ 0`, on the exact rational value. -/
def pyRound (x : ℚ) (nd : ℕ) : ℚ :=
  (roundHalfEven (x * 10 ^ nd) : ℚ) / 10 ^ nd

/-- Source lines 110-129: the body of the sweep loop for one candidate
age. `yrs`, `ry`, `fs`, `svc`, `pen`, `ls`, `sft_val`, `sft_thr` and
`over` are exactly the single-scenario pipeline (lines 55-60, 89) with
`years_to_retirement` replaced by `yrs = max(0, age - current_age)`; the
row stores the rounded display values of lines 118-129. -/
def mkRow (I : Inputs) (current_age current_year age : ℤ) : ScenarioRow :=
  let yrs := yearsFor current_age age
  ⟨age, current_year + yrs, yrs,
   pyRound (service_at_retirement I yrs) 2,
   pyRound (final_salary I yrs) 0,
   pyRound (annual_pension I yrs) 0,
   pyRound (lump_sum I yrs) 0,
   pyRound (sft_value I yrs) 0,
   pyRound (sft_threshold_future I yrs) 0,
   if over_sft I yrs then "Yes" else "No"⟩

/-- Source lines 108-129: `rows = []; for age in ages: ... rows.append({...})`. -/
def sweepRows (I : Inputs) (current_age current_year : ℤ) (ages : List ℤ) :
    List ScenarioRow :=
  ages.map (mkRow I current_age current_year)

/-- The Boolean comparison used to model the sort key `"Ret Age"`. -/
def rowLe (r s : ScenarioRow) : Bool :=
  decide (r.retAge ≤ s.retAge)

/-- Source line 131: `df = pd.DataFrame(rows).sort_values(["Ret Age"])`.
`pd.DataFrame` built from an empty list of records has no columns, so
`sort_values(["Ret Age"])` raises `KeyError: 'Ret Age'`; on a non-empty
list it sorts the rows ascending by the `"Ret Age"` column. pandas's
default sort is not stable, but rows with equal age are identical here
(each row is a function of its age alone), so a merge sort produces the
same table. -/
def scenarioTable (I : Inputs) (current_age current_year : ℤ) (ages : List ℤ) :
    Except String (List ScenarioRow) :=
  let rows := sweepRows I current_age current_year ages
  if rows.isEmpty then Except.error "KeyError: Ret Age"
  else Except.ok (rows.mergeSort rowLe)

/-- The end-to-end example inputs of spec section 8: salary 100000 growing
at 2%, 20 years of service accruing 1/year against a cap of 40,
capitalisation factor 20, SFT 2000000 with 0% growth. -/
def exampleInputs : Inputs :=
  ⟨100000, 2, 20, 1, 40, 20, 2000000, 0⟩

/-! ## Claims -/

/-- C5: for every `final_salary` and `service_years`,
`classic_db_pension` returns annual pension `final_salary × service_years / 80`
and lump sum `final_salary × service_years / 30` (divisor literally 30); in
particular it returns `(0, 0)` whenever either argument is `0`. -/
theorem C5_classic_db_pension (fs sv : ℚ) :
    classic_db_pension fs sv = (fs * sv / 80, fs * sv / 30) ∧
    classic_db_pension 0 sv = (0, 0) ∧ classic_db_pension fs 0 = (0, 0) := by
  refine ⟨?_, by simp [classic_db_pension], by simp [classic_db_pension]⟩
  simp only [classic_db_pension, Prod.mk.injEq]
  constructor <;> ring

/-- C7: the salary projector and the threshold projector are the same
function; both compute the spec's `project_growth` formula
`base × (1 + growth_pct/100)^years` with no special-casing. -/
theorem C7_projectors_equal (b g : ℚ) (y : ℕ) :
    project_final_salary b g y = sft_at_year b g y ∧
    project_final_salary b g y = project_growth b g y ∧
    project_final_salary b g y = b * ((1 + g / 100) ^ y) :=
  ⟨rfl, rfl, rfl⟩

/-- C4: the valuation equals `annual_pension × valuation_factor + lump_sum`,
the threshold equals the growth projection of `sft_now` at `sft_growth_pct`
over `years_to_retirement`, and `over_threshold` holds exactly when the
valuation strictly exceeds the threshold (equality counts as within). -/
theorem C4_valuation_threshold (I : Inputs) (y : ℕ) :
    sft_value I y = annual_pension I y * I.valuation_factor + lump_sum I y ∧
    sft_threshold_future I y = project_growth I.sft_now I.sft_growth_pct y ∧
    (over_sft I y = true ↔ sft_value I y > sft_threshold_future I y) ∧
    (sft_value I y = sft_threshold_future I y → over_sft I y = false) := by
  refine ⟨rfl, rfl, by simp [over_sft], ?_⟩
  intro h
  simp [over_sft, h]

/-- C1 counterexample: the claim as stated is false at
`base_service = 50, accrual_per_year = 0, years = 0, cap = 40`: the code
returns `min(50 + 0, 40) = 40`, which is below `base_service` and not
equal to it, even though `accrual_per_year = 0` and `base_service > cap`. -/
theorem C1_cex :
    project_service 50 0 0 40 = 40 ∧ project_service 50 0 0 40 ≠ 50 ∧ (40 : ℚ) < 50 := by
  refine ⟨?_, ?_, by norm_num⟩ <;> norm_num [project_service]

/-- C1 amended: for `accrual_per_year ≥ 0` the result is never below
`min(base_service, cap)`; whenever `base_service ≤ cap` it is at least
`base_service`, and equals `base_service` if moreover `accrual_per_year = 0`;
but when `base_service` exceeds `cap` the result is `cap` (so the `min`
does reduce the reported service below the starting point). -/
theorem C1_service_floor (s a cap : ℚ) (y : ℕ) (ha : 0 ≤ a) :
    min s cap ≤ project_service s a y cap ∧
    (s ≤ cap → s ≤ project_service s a y cap ∧
      (a = 0 → project_service s a y cap = s)) ∧
    (cap < s → project_service s a y cap = cap) := by
  have hay : 0 ≤ a * (y : ℚ) := mul_nonneg ha (Nat.cast_nonneg y)
  have hgrow : s ≤ s + a * (y : ℚ) := by linarith
  unfold project_service
  refine ⟨le_min (le_trans (min_le_left s cap) hgrow) (min_le_right s cap), ?_, ?_⟩
  · intro hsc
    refine ⟨le_min hgrow hsc, ?_⟩
    intro h0
    rw [h0]
    simpa using min_eq_left hsc
  · intro hcs
    exact min_eq_right (by linarith)

/-- C1 witness: instantiation at `s = 20, a = 1, y = 5, cap = 40`. -/
theorem C1_service_floor_witness :
    min (20 : ℚ) 40 ≤ project_service 20 1 5 40 ∧
    ((20 : ℚ) ≤ 40 → (20 : ℚ) ≤ project_service 20 1 5 40 ∧
      ((1 : ℚ) = 0 → project_service 20 1 5 40 = 20)) ∧
    ((40 : ℚ) < 20 → project_service 20 1 5 40 = 40) :=
  C1_service_floor 20 1 40 5 (by norm_num)

/-- C8: when `current_service + accrual × years` strictly exceeds the cap
(with `accrual ≥ 0`), the projected service equals the cap exactly and the
service-hit-cap warning condition `|service − cap| < 1e-9` is true. -/
theorem C8_cap_hit (I : Inputs) (y : ℕ) (ha : 0 ≤ I.annual_service_accrual)
    (h : I.max_service_cap < I.current_service + I.annual_service_accrual * y) :
    service_at_retirement I y = I.max_service_cap ∧ serviceHitCap I y = true := by
  have hs : service_at_retirement I y = I.max_service_cap := by
    unfold service_at_retirement project_service
    exact min_eq_right h.le
  refine ⟨hs, ?_⟩
  simp only [serviceHitCap, hs, sub_self, abs_zero, decide_eq_true_eq]
  norm_num

/-- C8 witness: the example inputs with 25 years to retirement, where
`20 + 1 × 25 = 45 > 40`. -/
theorem C8_cap_hit_witness :
    (0 : ℚ) ≤ exampleInputs.annual_service_accrual ∧
    exampleInputs.max_service_cap <
      exampleInputs.current_service + exampleInputs.annual_service_accrual * (25 : ℕ) ∧
    (service_at_retirement exampleInputs 25 = exampleInputs.max_service_cap ∧
      serviceHitCap exampleInputs 25 = true) :=
  ⟨by norm_num [exampleInputs], by norm_num [exampleInputs],
    C8_cap_hit exampleInputs 25 (by norm_num [exampleInputs]) (by norm_num [exampleInputs])⟩

/-- C6: compound growth is monotone non-decreasing in the number of years
for non-negative base and growth percentage; in particular the projected
final salary and the projected threshold are monotone in
`years_to_retirement` when the growth percentages are non-negative. -/
theorem C6_monotone (I : Inputs) (b g : ℚ) (y1 y2 : ℕ)
    (hb : 0 ≤ b) (hg : 0 ≤ g)
    (hs : 0 ≤ I.current_salary) (hsg : 0 ≤ I.salary_growth_pct)
    (ht : 0 ≤ I.sft_now) (htg : 0 ≤ I.sft_growth_pct) (hy : y1 < y2) :
    project_final_salary b g y1 ≤ project_final_salary b g y2 ∧
    sft_at_year b g y1 ≤ sft_at_year b g y2 ∧
    final_salary I y1 ≤ final_salary I y2 ∧
    sft_threshold_future I y1 ≤ sft_threshold_future I y2 := by
  have key : ∀ b g : ℚ, 0 ≤ b → 0 ≤ g →
      b * ((1 + g / 100) ^ y1) ≤ b * ((1 + g / 100) ^ y2) := by
    intro b g hb hg
    have h100 : (0 : ℚ) ≤ g / 100 := by positivity
    have h1 : (1 : ℚ) ≤ 1 + g / 100 := by linarith
    exact mul_le_mul_of_nonneg_left (pow_le_pow_right₀ h1 hy.le) hb
  exact ⟨key b g hb hg, key b g hb hg, key _ _ hs hsg, key _ _ ht htg⟩

/-- C6 witness: the example inputs, `b = 5, g = 1, y1 = 3 < y2 = 7`. -/
theorem C6_monotone_witness :
    project_final_salary 5 1 3 ≤ project_final_salary 5 1 7 ∧
    sft_at_year 5 1 3 ≤ sft_at_year 5 1 7 ∧
    final_salary exampleInputs 3 ≤ final_salary exampleInputs 7 ∧
    sft_threshold_future exampleInputs 3 ≤ sft_threshold_future exampleInputs 7 :=
  C6_monotone exampleInputs 5 1 3 7 (by norm_num) (by norm_num)
    (by norm_num [exampleInputs]) (by norm_num [exampleInputs])
    (by norm_num [exampleInputs]) (by norm_num [exampleInputs]) (by norm_num)

/-- C9: with non-negative salary, service and growth percentages,
non-negative accrual, positive cap, positive valuation factor and positive
current SFT, every monetary output of the pipeline is non-negative. -/
theorem C9_nonneg (I : Inputs) (y : ℕ)
    (hs : 0 ≤ I.current_salary) (hsvc : 0 ≤ I.current_service)
    (hsg : 0 ≤ I.salary_growth_pct) (htg : 0 ≤ I.sft_growth_pct)
    (ha : 0 ≤ I.annual_service_accrual) (hcap : 0 < I.max_service_cap)
    (hvf : 0 < I.valuation_factor) (hsft : 0 < I.sft_now) :
    0 ≤ final_salary I y ∧ 0 ≤ annual_pension I y ∧ 0 ≤ lump_sum I y ∧
    0 ≤ sft_value I y ∧ 0 ≤ sft_threshold_future I y := by
  have hpow : ∀ g : ℚ, 0 ≤ g → (0 : ℚ) ≤ (1 + g / 100) ^ y := by
    intro g hg
    have h100 : (0 : ℚ) ≤ g / 100 := by positivity
    exact pow_nonneg (by linarith) y
  have hfs : 0 ≤ final_salary I y := mul_nonneg hs (hpow _ hsg)
  have hsvc2 : 0 ≤ service_at_retirement I y :=
    le_min (add_nonneg hsvc (mul_nonneg ha (Nat.cast_nonneg y))) hcap.le
  have hpen : 0 ≤ annual_pension I y := by
    simp only [annual_pension, classic_db_pension]
    exact mul_nonneg hfs (div_nonneg hsvc2 (by norm_num))
  have hls : 0 ≤ lump_sum I y := by
    simp only [lump_sum, classic_db_pension]
    exact mul_nonneg hfs (div_nonneg hsvc2 (by norm_num))
  have hval : 0 ≤ sft_value I y := add_nonneg (mul_nonneg hpen hvf.le) hls
  have hthr : 0 ≤ sft_threshold_future I y := mul_nonneg hsft.le (hpow _ htg)
  exact ⟨hfs, hpen, hls, hval, hthr⟩

/-- C9 witness: the example inputs with 10 years to retirement. -/
theorem C9_nonneg_witness :
    0 ≤ final_salary exampleInputs 10 ∧ 0 ≤ annual_pension exampleInputs 10 ∧
    0 ≤ lump_sum exampleInputs 10 ∧ 0 ≤ sft_value exampleInputs 10 ∧
    0 ≤ sft_threshold_future exampleInputs 10 :=
  C9_nonneg exampleInputs 10 (by norm_num [exampleInputs]) (by norm_num [exampleInputs])
    (by norm_num [exampleInputs]) (by norm_num [exampleInputs]) (by norm_num [exampleInputs])
    (by norm_num [exampleInputs]) (by norm_num [exampleInputs]) (by norm_num [exampleInputs])

/-- The inputs with `current_salary` scaled by `c` and every other field
unchanged. -/
def scaleSalary (c : ℚ) (I : Inputs) : Inputs :=
  ⟨c * I.current_salary, I.salary_growth_pct, I.current_service,
   I.annual_service_accrual, I.max_service_cap, I.valuation_factor,
   I.sft_now, I.sft_growth_pct⟩

/-- C10: the pipeline is homogeneous in the salary: scaling
`current_salary` by `c ≥ 0` scales the final salary, annual pension, lump
sum and valuation each by exactly `c`, and leaves projected service and
projected threshold unchanged. -/
theorem C10_homogeneous (I : Inputs) (c : ℚ) (y : ℕ) (hc : 0 ≤ c) :
    final_salary (scaleSalary c I) y = c * final_salary I y ∧
    annual_pension (scaleSalary c I) y = c * annual_pension I y ∧
    lump_sum (scaleSalary c I) y = c * lump_sum I y ∧
    sft_value (scaleSalary c I) y = c * sft_value I y ∧
    service_at_retirement (scaleSalary c I) y = service_at_retirement I y ∧
    sft_threshold_future (scaleSalary c I) y = sft_threshold_future I y := by
  have hsvc : service_at_retirement (scaleSalary c I) y = service_at_retirement I y := rfl
  have hfs : final_salary (scaleSalary c I) y = c * final_salary I y := by
    simp only [final_salary, project_final_salary, scaleSalary]
    ring
  have hpen : annual_pension (scaleSalary c I) y = c * annual_pension I y := by
    simp only [annual_pension, classic_db_pension, hfs, hsvc]
    ring
  have hls : lump_sum (scaleSalary c I) y = c * lump_sum I y := by
    simp only [lump_sum, classic_db_pension, hfs, hsvc]
    ring
  have hval : sft_value (scaleSalary c I) y = c * sft_value I y := by
    have hvf : (scaleSalary c I).valuation_factor = I.valuation_factor := rfl
    simp only [sft_value, hpen, hls, hvf]
    ring
  exact ⟨hfs, hpen, hls, hval, hsvc, rfl⟩

/-- C10 witness: the example inputs scaled by `c = 3` at 10 years. -/
theorem C10_homogeneous_witness :
    final_salary (scaleSalary 3 exampleInputs) 10 = 3 * final_salary exampleInputs 10 ∧
    annual_pension (scaleSalary 3 exampleInputs) 10 = 3 * annual_pension exampleInputs 10 ∧
    lump_sum (scaleSalary 3 exampleInputs) 10 = 3 * lump_sum exampleInputs 10 ∧
    sft_value (scaleSalary 3 exampleInputs) 10 = 3 * sft_value exampleInputs 10 ∧
    service_at_retirement (scaleSalary 3 exampleInputs) 10 =
      service_at_retirement exampleInputs 10 ∧
    sft_threshold_future (scaleSalary 3 exampleInputs) 10 =
      sft_threshold_future exampleInputs 10 :=
  C10_homogeneous exampleInputs 3 10 (by norm_num)

/-- C2: the sweep loop itself yields `[]` on an empty age set, but the
table construction on line 131 then raises `KeyError` (an empty
`pd.DataFrame` has no `"Ret Age"` column to sort by), so the code errors
instead of returning an empty sequence; on a singleton `{A}` it returns
exactly one row whose retirement age is `A`. -/
theorem C2_empty_and_singleton (I : Inputs) (ca cy : ℤ) :
    sweepRows I ca cy [] = [] ∧
    scenarioTable I ca cy [] = Except.error "KeyError: Ret Age" ∧
    ∀ A : ℤ, scenarioTable I ca cy [A] = Except.ok [mkRow I ca cy A] ∧
      (mkRow I ca cy A).retAge = A := by
  refine ⟨rfl, rfl, fun A => ⟨?_, rfl⟩⟩
  simp [scenarioTable, sweepRows]

/-- C2 has no propositional hypotheses, but we also record a closed
instance at the example inputs, with the error value computed. -/
theorem C2_empty_and_singleton_witness :
    scenarioTable exampleInputs 55 2026 [] = Except.error "KeyError: Ret Age" ∧
    scenarioTable exampleInputs 55 2026 [65] =
      Except.ok [mkRow exampleInputs 55 2026 65] :=
  ⟨(C2_empty_and_singleton exampleInputs 55 2026).2.1,
    ((C2_empty_and_singleton exampleInputs 55 2026).2.2 65).1⟩

/-- Each field of a sweep row, unfolded: a row for `age` carries
`yrs = max(0, age - current_age)`, `ry = current_year + yrs`, and the
single-scenario pipeline values at `yrs`, rounded for display. -/
theorem mkRow_fields (I : Inputs) (ca cy a : ℤ) :
    (mkRow I ca cy a).retAge = a ∧
    (mkRow I ca cy a).yearsToRet = yearsFor ca a ∧
    (mkRow I ca cy a).retYear = cy + (yearsFor ca a : ℤ) ∧
    (mkRow I ca cy a).service = pyRound (service_at_retirement I (yearsFor ca a)) 2 ∧
    (mkRow I ca cy a).finalSalary = pyRound (final_salary I (yearsFor ca a)) 0 ∧
    (mkRow I ca cy a).annualPension = pyRound (annual_pension I (yearsFor ca a)) 0 ∧
    (mkRow I ca cy a).lumpSum = pyRound (lump_sum I (yearsFor ca a)) 0 ∧
    (mkRow I ca cy a).sftVal = pyRound (sft_value I (yearsFor ca a)) 0 ∧
    (mkRow I ca cy a).sftThr = pyRound (sft_threshold_future I (yearsFor ca a)) 0 ∧
    (mkRow I ca cy a).overStr = (if over_sft I (yearsFor ca a) then "Yes" else "No") :=
  ⟨rfl, rfl, rfl, rfl, rfl, rfl, rfl, rfl, rfl, rfl⟩

/-- C3 counterexample: the claim quantifies over every input list of ages,
but at `ages = []` the sweep does not produce a sequence of rows at all:
the table construction errors (see C2), so no `Except.ok` value exists. -/
theorem C3_cex :
    (∀ rows, scenarioTable exampleInputs 55 2026 [] ≠ Except.ok rows) ∧
    scenarioTable exampleInputs 55 2026 [] = Except.error "KeyError: Ret Age" := by
  refine ⟨fun rows h => ?_, rfl⟩
  exact Except.noConfusion h

/-- C3 amended: for every non-empty input list of ages the sweep
succeeds and produces exactly one row per requested age (duplicates
included: the count of rows carrying age `a` equals the number of times
`a` was requested), the rows are ordered ascending by retirement age
regardless of input order, and every row is exactly the row built from
its age by the single-scenario pipeline with
`years = max(0, age - current_age)` and
`retirement_year = current_year + years`. -/
theorem C3_sweep (I : Inputs) (ca cy : ℤ) (ages : List ℤ) (h : ages ≠ []) :
    ∃ rows, scenarioTable I ca cy ages = Except.ok rows ∧
      rows.length = ages.length ∧
      (∀ a : ℤ, rows.countP (fun r => decide (r.retAge = a)) =
        ages.countP (fun x => decide (x = a))) ∧
      List.Pairwise (fun r s : ScenarioRow => r.retAge ≤ s.retAge) rows ∧
      (∀ r ∈ rows, r = mkRow I ca cy r.retAge) ∧
      (∀ r ∈ rows, r.yearsToRet = yearsFor ca r.retAge ∧
        r.retYear = cy + (r.yearsToRet : ℤ) ∧
        r.finalSalary = pyRound (final_salary I r.yearsToRet) 0 ∧
        r.sftVal = pyRound (sft_value I r.yearsToRet) 0) := by
  have hr : sweepRows I ca cy ages ≠ [] := by
    simpa [sweepRows] using h
  have hperm : List.Perm ((sweepRows I ca cy ages).mergeSort rowLe)
      (sweepRows I ca cy ages) :=
    List.mergeSort_perm _ _
  have hmem : ∀ r ∈ (sweepRows I ca cy ages).mergeSort rowLe,
      ∃ a ∈ ages, r = mkRow I ca cy a := by
    intro r hrm
    have : r ∈ sweepRows I ca cy ages := hperm.mem_iff.mp hrm
    obtain ⟨a, ha, rfl⟩ := List.mem_map.mp this
    exact ⟨a, ha, rfl⟩
  refine ⟨(sweepRows I ca cy ages).mergeSort rowLe, ?_, ?_, ?_, ?_, ?_, ?_⟩
  · simp only [scenarioTable]
    rw [if_neg]
    simp [hr]
  · rw [hperm.length_eq]
    simp [sweepRows]
  · intro a
    rw [hperm.countP_eq]
    simp only [sweepRows, List.countP_map]
    rfl
  · have hsorted : ((sweepRows I ca cy ages).mergeSort rowLe).Pairwise
        (fun r s => rowLe r s) := by
      apply List.sorted_mergeSort
      · intro a b c hab hbc
        simp only [rowLe, decide_eq_true_eq] at hab hbc ⊢
        exact le_trans hab hbc
      · intro a b
        simp only [rowLe]
        by_cases hab : a.retAge ≤ b.retAge
        · simp [hab]
        · simp [le_of_not_le hab]
    exact hsorted.imp (by simp only [rowLe, decide_eq_true_eq]; exact fun h => h)
  · intro r hrm
    obtain ⟨a, _, rfl⟩ := hmem r hrm
    rfl
  · intro r hrm
    obtain ⟨a, _, rfl⟩ := hmem r hrm
    exact ⟨rfl, rfl, rfl, rfl⟩

/-- C3 witness: the spec's duplicate example `[65, 60, 65]` at the example
inputs with current age 55 in 2026. -/
theorem C3_sweep_witness :
    ∃ rows, scenarioTable exampleInputs 55 2026 [65, 60, 65] = Except.ok rows ∧
      rows.length = ([65, 60, 65] : List ℤ).length ∧
      (∀ a : ℤ, rows.countP (fun r => decide (r.retAge = a)) =
        ([65, 60, 65] : List ℤ).countP (fun x => decide (x = a))) ∧
      List.Pairwise (fun r s : ScenarioRow => r.retAge ≤ s.retAge) rows ∧
      (∀ r ∈ rows, r = mkRow exampleInputs 55 2026 r.retAge) ∧
      (∀ r ∈ rows, r.yearsToRet = yearsFor 55 r.retAge ∧
        r.retYear = 2026 + (r.yearsToRet : ℤ) ∧
        r.finalSalary = pyRound (final_salary exampleInputs r.yearsToRet) 0 ∧
        r.sftVal = pyRound (sft_value exampleInputs r.yearsToRet) 0) :=
  C3_sweep exampleInputs 55 2026 [65, 60, 65] (by simp)
